import Mathlib

/-!
Shallow embedding of `src/distributions.py`.

The repository defines two Python classes, `Distributions` (scipy
generators together with the `statistics` module) and `NumpyDistribution`
(numpy generators and numpy statistics).  Each constructor dispatches on a
distribution-name string, calls a library random-variate generator with
translated parameters, and stores rounded summary statistics.

Modelling conventions:
- Python floats are modelled as real numbers, Python ints as integers.
- The random draw is modelled by an explicit generator argument
  `rng : GenCall → List ℝ` (resp. `NpGenCall → List ℝ`); the constructor
  records the exact call it makes so that parameter translation is
  observable.
- Exceptions raised inside the constructor (the `statistics` module raises
  `StatisticsError` on fewer than the required data points) are modelled
  with `Except`; the printed diagnostic line is recorded explicitly.
-/

open scoped Classical

/-- Python exceptions that the embedded code can raise. -/
inductive PyErr
  | statisticsError (msg : String)
  | attributeError (attr : String)
  deriving DecidableEq

/-- Result of a Python eq method: a boolean, or the NotImplemented
sentinel that Python returns on a type mismatch. -/
inductive EqVal
  | bool (b : Bool)
  | notImplemented
  deriving DecidableEq

/-- One call to a scipy random-variate generator, with the exact keyword
arguments the source passes: `lognorm.rvs(s=.., scale=.., size=..)`,
`norm.rvs(loc=.., scale=.., size=..)`, `laplace.rvs(loc=.., scale=.., size=..)`. -/
inductive GenCall
  | lognorm (s : ℝ) (scale : ℝ) (size : ℤ)
  | norm (loc : ℝ) (scale : ℝ) (size : ℤ)
  | laplace (loc : ℝ) (scale : ℝ) (size : ℤ)

/-- One call to a numpy random generator, with the exact keyword arguments
the source passes: `np.random.lognormal(mean=.., sigma=.., size=..)`,
`np.random.normal(loc=.., scale=.., size=..)`,
`np.random.laplace(loc=.., scale=.., size=..)`. -/
inductive NpGenCall
  | lognormal (mean : ℝ) (sigma : ℝ) (size : ℤ)
  | normal (loc : ℝ) (scale : ℝ) (size : ℤ)
  | laplace (loc : ℝ) (scale : ℝ) (size : ℤ)

/-- Sum of a list of reals. -/
def listSum (vs : List ℝ) : ℝ := vs.foldr (· + ·) 0

/-- Arithmetic mean: the value computed by both `statistics.mean` and
`np.mean`.  (`np.mean` of an empty array is NaN in Python; the real-number
model yields 0/0 = 0 there.  No claim below relies on an empty numpy
sample.) -/
noncomputable def sampleMean (vs : List ℝ) : ℝ := listSum vs / vs.length

/-- Sum of squared deviations from the arithmetic mean. -/
noncomputable def sumSqDev (vs : List ℝ) : ℝ :=
  listSum (vs.map (fun x => (x - sampleMean vs) ^ 2))

/-- Bessel-corrected sample standard deviation, denominator n - 1: the
value computed by `statistics.stdev` (which is only reached on lists of
length at least 2, see `statsStdev`). -/
noncomputable def besselStdev (vs : List ℝ) : ℝ :=
  Real.sqrt (sumSqDev vs / ((vs.length : ℝ) - 1))

/-- Population standard deviation, denominator n: the value computed by
`np.std`, whose default ddof is 0. -/
noncomputable def npStd (vs : List ℝ) : ℝ :=
  Real.sqrt (sumSqDev vs / (vs.length : ℝ))

/-- `statistics.mean`: raises StatisticsError on an empty data set. -/
noncomputable def statsMean (vs : List ℝ) : Except PyErr ℝ :=
  if vs.length = 0 then
    .error (.statisticsError "mean requires at least one data point")
  else .ok (sampleMean vs)

/-- `statistics.stdev`: raises StatisticsError on fewer than two points. -/
noncomputable def statsStdev (vs : List ℝ) : Except PyErr ℝ :=
  if vs.length < 2 then
    .error (.statisticsError "variance requires at least two data points")
  else .ok (besselStdev vs)

/-- Round to the nearest integer with ties going to the even neighbour:
the rounding used by both Python round() and np.round on the exact value.
Away from a tie this agrees with rounding to the nearest integer; at a tie
the doubled rounding picks the even neighbour. -/
noncomputable def roundHalfEven (y : ℝ) : ℤ :=
  if Int.fract y = 1 / 2 then 2 * round (y / 2) else round y

/-- Rounding to two decimal places: round(x, 2) in `Distributions` and
np.round(x, decimals=2) in `NumpyDistribution`. -/
noncomputable def round2 (x : ℝ) : ℝ := ((roundHalfEven (100 * x) : ℤ) : ℝ) / 100

/-- Python int() applied to a value that is already an integer is the
identity.  Size arguments are modelled as integers: the underlying
generators reject non-integral sizes, which the spec leaves undefined. -/
def pyInt (n : ℤ) : ℤ := n

/-- Python float() applied to a numeric value, modelled as a real number. -/
def pyFloat (x : ℝ) : ℝ := x

/-- Python str() applied to a value that is already a string. -/
def pyStrId (s : String) : String := s

/-- The diagnostic printed when the distribution tag is not recognized. -/
def warningMsg : String :=
  "You may have meant to type \x27normal\x27, \x27lognormal\x27 or \x27laplace\x27 for distribution. We\x27ll create the object anyways."

/-- Attribute state of a `Distributions` object after `__init__`.  The
three sample slots are class attributes defaulting to None; `__init__`
assigns at most one of them. -/
structure Distributions where
  laplace_dist : Option (List ℝ)
  lognormal_dist : Option (List ℝ)
  normal_dist : Option (List ℝ)
  distribution : String
  mean : ℝ
  st_dev : ℝ
  size : ℤ

/-- Attribute state of a `NumpyDistribution` object after `__init__`. -/
structure NumpyDistribution where
  laplace_dist : Option (List ℝ)
  lognormal_dist : Option (List ℝ)
  normal_dist : Option (List ℝ)
  distribution : String
  mean : ℝ
  st_dev : ℝ
  size : ℤ

/-- Everything observable from running a constructor: the generator calls
made, the diagnostic lines printed, and either the constructed object or
the exception that escaped `__init__`. -/
structure InitTrace (C O : Type) where
  calls : List C
  printed : List String
  result : Except PyErr O

/-- `Distributions.__init__`.  The drawn values are supplied by `rng`,
which receives the exact generator call the constructor makes.  Branch
order and stored expressions follow the source: each recognized branch
draws, then stores round(statistics.mean(..), 2), round(statistics.stdev(..), 2)
and int(size); the fallback branch prints a diagnostic and stores the raw
inputs coerced with str, float, float, int. -/
noncomputable def Distributions.init (rng : GenCall → List ℝ)
    (distribution : String) (mean st_dev : ℝ) (size : ℤ) :
    InitTrace GenCall Distributions :=
  if distribution = "lognormal" then
    -- scipy standardizes s and scale by setting s=sd and scale=exp(mu)
    let c := GenCall.lognorm st_dev (Real.exp mean) size
    let vs := rng c
    ⟨[c], [],
      match statsMean vs with
      | .error e => .error e
      | .ok m =>
        match statsStdev vs with
        | .error e => .error e
        | .ok s =>
          .ok { laplace_dist := none, lognormal_dist := some vs,
                normal_dist := none, distribution := distribution,
                mean := round2 m, st_dev := round2 s, size := pyInt size }⟩
  else if distribution = "normal" then
    let c := GenCall.norm mean st_dev size
    let vs := rng c
    ⟨[c], [],
      match statsMean vs with
      | .error e => .error e
      | .ok m =>
        match statsStdev vs with
        | .error e => .error e
        | .ok s =>
          .ok { laplace_dist := none, lognormal_dist := none,
                normal_dist := some vs, distribution := distribution,
                mean := round2 m, st_dev := round2 s, size := pyInt size }⟩
  else if distribution = "laplace" then
    -- Calculate b:
    let var := st_dev ^ 2
    let b := Real.sqrt (var / 2)
    let c := GenCall.laplace mean b size
    let vs := rng c
    ⟨[c], [],
      match statsMean vs with
      | .error e => .error e
      | .ok m =>
        match statsStdev vs with
        | .error e => .error e
        | .ok s =>
          .ok { laplace_dist := some vs, lognormal_dist := none,
                normal_dist := none, distribution := distribution,
                mean := round2 m, st_dev := round2 s, size := pyInt size }⟩
  else
    ⟨[], [warningMsg],
      .ok { laplace_dist := none, lognormal_dist := none, normal_dist := none,
            distribution := pyStrId distribution, mean := pyFloat mean,
            st_dev := pyFloat st_dev, size := pyInt size }⟩

/-- `NumpyDistribution.__init__`.  Same dispatch as `Distributions.init`,
but the summary statistics are np.round(np.mean(..), decimals=2) and
np.round(np.std(..), decimals=2), the numpy functions never raise here,
and the recognized branches store the size argument without int(). -/
noncomputable def NumpyDistribution.init (rng : NpGenCall → List ℝ)
    (distribution : String) (mean st_dev : ℝ) (size : ℤ) :
    InitTrace NpGenCall NumpyDistribution :=
  if distribution = "lognormal" then
    let c := NpGenCall.lognormal mean st_dev size
    let vs := rng c
    ⟨[c], [],
      .ok { laplace_dist := none, lognormal_dist := some vs, normal_dist := none,
            distribution := distribution, mean := round2 (sampleMean vs),
            st_dev := round2 (npStd vs), size := size }⟩
  else if distribution = "normal" then
    let c := NpGenCall.normal mean st_dev size
    let vs := rng c
    ⟨[c], [],
      .ok { laplace_dist := none, lognormal_dist := none, normal_dist := some vs,
            distribution := distribution, mean := round2 (sampleMean vs),
            st_dev := round2 (npStd vs), size := size }⟩
  else if distribution = "laplace" then
    -- same calculation as in Distributions class
    let var := st_dev ^ 2
    let b := Real.sqrt (var / 2)
    let c := NpGenCall.laplace mean b size
    let vs := rng c
    ⟨[c], [],
      .ok { laplace_dist := some vs, lognormal_dist := none, normal_dist := none,
            distribution := distribution, mean := round2 (sampleMean vs),
            st_dev := round2 (npStd vs), size := size }⟩
  else
    ⟨[], [warningMsg],
      .ok { laplace_dist := none, lognormal_dist := none, normal_dist := none,
            distribution := pyStrId distribution, mean := pyFloat mean,
            st_dev := pyFloat st_dev, size := pyInt size }⟩

/-- A Python attribute value, for modelling getattr. -/
inductive PyVal
  | str (s : String)
  | real (x : ℝ)
  | int (n : ℤ)
  | arr (a : Option (List ℝ))

/-- A dynamically typed object of this module: the argument of eq can be
an instance of either concrete class. -/
inductive PyObject
  | dist (d : Distributions)
  | npdist (d : NumpyDistribution)

/-- Attribute lookup on a `Distributions` object.  The attributes that
exist are the three class slots and the four names assigned in `__init__`;
in particular there is no attribute named std_dev (the assigned name is
st_dev), so looking it up yields none, which Python reports as an
AttributeError. -/
def Distributions.getattr (d : Distributions) : String → Option PyVal
  | "laplace_dist" => some (.arr d.laplace_dist)
  | "lognormal_dist" => some (.arr d.lognormal_dist)
  | "normal_dist" => some (.arr d.normal_dist)
  | "distribution" => some (.str d.distribution)
  | "mean" => some (.real d.mean)
  | "st_dev" => some (.real d.st_dev)
  | "size" => some (.int d.size)
  | _ => none

/-- Attribute lookup on a `NumpyDistribution` object; same attribute set. -/
def NumpyDistribution.getattr (d : NumpyDistribution) : String → Option PyVal
  | "laplace_dist" => some (.arr d.laplace_dist)
  | "lognormal_dist" => some (.arr d.lognormal_dist)
  | "normal_dist" => some (.arr d.normal_dist)
  | "distribution" => some (.str d.distribution)
  | "mean" => some (.real d.mean)
  | "st_dev" => some (.real d.st_dev)
  | "size" => some (.int d.size)
  | _ => none

/-- `Distributions.__eq__`.  The source returns the conjunction of
self.distribution == other.distribution, self.mean == other.mean,
self.st_dev == other.std_dev and self.size == other.size on a same-type
operand, and NotImplemented otherwise.  Python `and` short-circuits, so
the attribute lookup other.std_dev is only reached once the first two
comparisons have succeeded; that lookup fails, since no such attribute
exists. -/
noncomputable def Distributions.eq (self : Distributions) (other : PyObject) :
    Except PyErr EqVal :=
  match other with
  | .dist o =>
    if self.distribution = o.distribution ∧ self.mean = o.mean then
      match o.getattr "std_dev" with
      | some v => .ok (.bool (decide (v = .real self.st_dev ∧ self.size = o.size)))
      | none => .error (.attributeError "std_dev")
    else .ok (.bool false)
  | _ => .ok .notImplemented

/-- `NumpyDistribution.__eq__`: textually the same comparison as
`Distributions.__eq__`, against a same-type operand. -/
noncomputable def NumpyDistribution.eq (self : NumpyDistribution)
    (other : PyObject) : Except PyErr EqVal :=
  match other with
  | .npdist o =>
    if self.distribution = o.distribution ∧ self.mean = o.mean then
      match o.getattr "std_dev" with
      | some v => .ok (.bool (decide (v = .real self.st_dev ∧ self.size = o.size)))
      | none => .error (.attributeError "std_dev")
    else .ok (.bool false)
  | _ => .ok .notImplemented

/-- `Distributions.__str__`.  Python formats each interpolated field with
str(); the renderings of floats and ints are abstracted as fmtF and fmtI. -/
def Distributions.toStr (fmtF : ℝ → String) (fmtI : ℤ → String)
    (d : Distributions) : String :=
  "Distribution: " ++ d.distribution ++ ", Mean: " ++ fmtF d.mean ++
    ", Standard Deviation: " ++ fmtF d.st_dev ++ ", Size: " ++ fmtI d.size

/-- `NumpyDistribution.__str__`: same template. -/
def NumpyDistribution.toStr (fmtF : ℝ → String) (fmtI : ℤ → String)
    (d : NumpyDistribution) : String :=
  "Distribution: " ++ d.distribution ++ ", Mean: " ++ fmtF d.mean ++
    ", Standard Deviation: " ++ fmtF d.st_dev ++ ", Size: " ++ fmtI d.size

/-- Proof-side helper: the sample stored in whichever of the three slots
is populated, if any. -/
def Distributions.values (d : Distributions) : Option (List ℝ) :=
  match d.lognormal_dist with
  | some vs => some vs
  | none =>
    match d.normal_dist with
    | some vs => some vs
    | none => d.laplace_dist

/-- Proof-side helper: the populated sample slot of a `NumpyDistribution`. -/
def NumpyDistribution.values (d : NumpyDistribution) : Option (List ℝ) :=
  match d.lognormal_dist with
  | some vs => some vs
  | none =>
    match d.normal_dist with
    | some vs => some vs
    | none => d.laplace_dist

/-- The three distribution tags the constructors recognize, in the order
the if chain tests them. -/
def recognizedKinds : List String := ["lognormal", "normal", "laplace"]

/-! ## Branch characterizations of the two constructors -/

lemma distInit_lognormal_ok (rng : GenCall → List ℝ) (mean st_dev : ℝ) (size : ℤ)
    (h : 2 ≤ (rng (GenCall.lognorm st_dev (Real.exp mean) size)).length) :
    Distributions.init rng "lognormal" mean st_dev size =
      ⟨[GenCall.lognorm st_dev (Real.exp mean) size], [],
        .ok { laplace_dist := none,
              lognormal_dist := some (rng (GenCall.lognorm st_dev (Real.exp mean) size)),
              normal_dist := none, distribution := "lognormal",
              mean := round2 (sampleMean (rng (GenCall.lognorm st_dev (Real.exp mean) size))),
              st_dev := round2 (besselStdev (rng (GenCall.lognorm st_dev (Real.exp mean) size))),
              size := pyInt size }⟩ := by
  have h0 : ¬ (rng (GenCall.lognorm st_dev (Real.exp mean) size)).length = 0 := by omega
  have h2 : ¬ (rng (GenCall.lognorm st_dev (Real.exp mean) size)).length < 2 := by omega
  simp [Distributions.init, statsMean, statsStdev, h0, h2]

lemma distInit_normal_ok (rng : GenCall → List ℝ) (mean st_dev : ℝ) (size : ℤ)
    (h : 2 ≤ (rng (GenCall.norm mean st_dev size)).length) :
    Distributions.init rng "normal" mean st_dev size =
      ⟨[GenCall.norm mean st_dev size], [],
        .ok { laplace_dist := none, lognormal_dist := none,
              normal_dist := some (rng (GenCall.norm mean st_dev size)),
              distribution := "normal",
              mean := round2 (sampleMean (rng (GenCall.norm mean st_dev size))),
              st_dev := round2 (besselStdev (rng (GenCall.norm mean st_dev size))),
              size := pyInt size }⟩ := by
  have h0 : ¬ (rng (GenCall.norm mean st_dev size)).length = 0 := by omega
  have h2 : ¬ (rng (GenCall.norm mean st_dev size)).length < 2 := by omega
  simp [Distributions.init, statsMean, statsStdev, h0, h2]

lemma distInit_laplace_ok (rng : GenCall → List ℝ) (mean st_dev : ℝ) (size : ℤ)
    (h : 2 ≤ (rng (GenCall.laplace mean (Real.sqrt (st_dev ^ 2 / 2)) size)).length) :
    Distributions.init rng "laplace" mean st_dev size =
      ⟨[GenCall.laplace mean (Real.sqrt (st_dev ^ 2 / 2)) size], [],
        .ok { laplace_dist := some (rng (GenCall.laplace mean (Real.sqrt (st_dev ^ 2 / 2)) size)),
              lognormal_dist := none, normal_dist := none,
              distribution := "laplace",
              mean := round2 (sampleMean (rng (GenCall.laplace mean (Real.sqrt (st_dev ^ 2 / 2)) size))),
              st_dev := round2 (besselStdev (rng (GenCall.laplace mean (Real.sqrt (st_dev ^ 2 / 2)) size))),
              size := pyInt size }⟩ := by
  have h0 : ¬ (rng (GenCall.laplace mean (Real.sqrt (st_dev ^ 2 / 2)) size)).length = 0 := by omega
  have h2 : ¬ (rng (GenCall.laplace mean (Real.sqrt (st_dev ^ 2 / 2)) size)).length < 2 := by omega
  simp [Distributions.init, statsMean, statsStdev, h0, h2, -Real.sqrt_div, -Real.sqrt_div']

lemma distInit_unrecognized (rng : GenCall → List ℝ) (kind : String)
    (mean st_dev : ℝ) (size : ℤ)
    (h1 : kind ≠ "lognormal") (h2 : kind ≠ "normal") (h3 : kind ≠ "laplace") :
    Distributions.init rng kind mean st_dev size =
      ⟨[], [warningMsg], .ok ⟨none, none, none, kind, mean, st_dev, size⟩⟩ := by
  simp [Distributions.init, h1, h2, h3, pyStrId, pyFloat, pyInt]

lemma npInit_lognormal (rng : NpGenCall → List ℝ) (mean st_dev : ℝ) (size : ℤ) :
    NumpyDistribution.init rng "lognormal" mean st_dev size =
      ⟨[NpGenCall.lognormal mean st_dev size], [],
        .ok { laplace_dist := none,
              lognormal_dist := some (rng (NpGenCall.lognormal mean st_dev size)),
              normal_dist := none, distribution := "lognormal",
              mean := round2 (sampleMean (rng (NpGenCall.lognormal mean st_dev size))),
              st_dev := round2 (npStd (rng (NpGenCall.lognormal mean st_dev size))),
              size := size }⟩ := by
  simp [NumpyDistribution.init]

lemma npInit_normal (rng : NpGenCall → List ℝ) (mean st_dev : ℝ) (size : ℤ) :
    NumpyDistribution.init rng "normal" mean st_dev size =
      ⟨[NpGenCall.normal mean st_dev size], [],
        .ok { laplace_dist := none, lognormal_dist := none,
              normal_dist := some (rng (NpGenCall.normal mean st_dev size)),
              distribution := "normal",
              mean := round2 (sampleMean (rng (NpGenCall.normal mean st_dev size))),
              st_dev := round2 (npStd (rng (NpGenCall.normal mean st_dev size))),
              size := size }⟩ := by
  simp [NumpyDistribution.init]

lemma npInit_laplace (rng : NpGenCall → List ℝ) (mean st_dev : ℝ) (size : ℤ) :
    NumpyDistribution.init rng "laplace" mean st_dev size =
      ⟨[NpGenCall.laplace mean (Real.sqrt (st_dev ^ 2 / 2)) size], [],
        .ok { laplace_dist := some (rng (NpGenCall.laplace mean (Real.sqrt (st_dev ^ 2 / 2)) size)),
              lognormal_dist := none, normal_dist := none,
              distribution := "laplace",
              mean := round2 (sampleMean (rng (NpGenCall.laplace mean (Real.sqrt (st_dev ^ 2 / 2)) size))),
              st_dev := round2 (npStd (rng (NpGenCall.laplace mean (Real.sqrt (st_dev ^ 2 / 2)) size))),
              size := size }⟩ := by
  simp [NumpyDistribution.init, -Real.sqrt_div, -Real.sqrt_div']

lemma npInit_unrecognized (rng : NpGenCall → List ℝ) (kind : String)
    (mean st_dev : ℝ) (size : ℤ)
    (h1 : kind ≠ "lognormal") (h2 : kind ≠ "normal") (h3 : kind ≠ "laplace") :
    NumpyDistribution.init rng kind mean st_dev size =
      ⟨[], [warningMsg], .ok ⟨none, none, none, kind, mean, st_dev, size⟩⟩ := by
  simp [NumpyDistribution.init, h1, h2, h3, pyStrId, pyFloat, pyInt]

/-! ## Arithmetic facts about round2 and the concrete sample [0, 2] -/

lemma round2_one : round2 1 = 1 := by
  unfold round2 roundHalfEven
  rw [mul_one]
  rw [if_neg (by rw [show (100 : ℝ) = ((100 : ℤ) : ℝ) by norm_num, Int.fract_intCast]; norm_num)]
  rw [show (100 : ℝ) = ((100 : ℤ) : ℝ) by norm_num, round_intCast]
  norm_num

lemma sqrt_two_lb : (1405 / 1000 : ℝ) ≤ Real.sqrt 2 := by
  rw [Real.le_sqrt (by norm_num) (by norm_num)]
  norm_num

lemma sqrt_two_ub : Real.sqrt 2 < 1415 / 1000 := by
  rw [Real.sqrt_lt' (by norm_num)]
  norm_num

lemma fract_sqrt_two_ne : Int.fract (100 * Real.sqrt 2) ≠ 1 / 2 := by
  intro h
  rw [← Int.self_sub_floor] at h
  have hs : Real.sqrt 2 = ((⌊(100 : ℝ) * Real.sqrt 2⌋ : ℝ) + 1 / 2) / 100 := by linarith
  exact irrational_sqrt_two
    ⟨((⌊(100 : ℝ) * Real.sqrt 2⌋ : ℚ) + 1 / 2) / 100, by push_cast; linarith [hs]⟩

lemma round_100_sqrt_two : round ((100 : ℝ) * Real.sqrt 2) = 141 := by
  rw [round_eq]
  have h1 := sqrt_two_lb
  have h2 := sqrt_two_ub
  refine Int.floor_eq_iff.mpr ⟨by push_cast; linarith, by push_cast; linarith⟩

lemma round2_sqrt_two : round2 (Real.sqrt 2) = 141 / 100 := by
  unfold round2 roundHalfEven
  rw [if_neg fract_sqrt_two_ne, round_100_sqrt_two]
  norm_num

lemma sampleMean_02 : sampleMean [(0 : ℝ), 2] = 1 := by
  norm_num [sampleMean, listSum, List.foldr]

lemma sumSqDev_02 : sumSqDev [(0 : ℝ), 2] = 2 := by
  norm_num [sumSqDev, listSum, List.foldr, List.map, sampleMean_02]

lemma besselStdev_02 : besselStdev [(0 : ℝ), 2] = Real.sqrt 2 := by
  rw [besselStdev, sumSqDev_02]
  norm_num

lemma npStd_02 : npStd [(0 : ℝ), 2] = 1 := by
  rw [npStd, sumSqDev_02]
  norm_num

/-! ## Claim theorems -/

/-- C3: for kind laplace both constructors pass the generator a location
equal to mean and a scale equal to sqrt(st_dev ^ 2 / 2); instantiated at
st_dev = 1 this scale is 1 / sqrt 2. -/
theorem laplace_scale_parameter :
    (∀ (rng : GenCall → List ℝ) (mean st_dev : ℝ) (size : ℤ),
      (Distributions.init rng "laplace" mean st_dev size).calls =
        [GenCall.laplace mean (Real.sqrt (st_dev ^ 2 / 2)) size]) ∧
    (∀ (nrng : NpGenCall → List ℝ) (mean st_dev : ℝ) (size : ℤ),
      (NumpyDistribution.init nrng "laplace" mean st_dev size).calls =
        [NpGenCall.laplace mean (Real.sqrt (st_dev ^ 2 / 2)) size]) ∧
    Real.sqrt ((1 : ℝ) ^ 2 / 2) = 1 / Real.sqrt 2 := by
  refine ⟨fun rng mean st_dev size => rfl, fun nrng mean st_dev size => rfl, ?_⟩
  rw [one_pow, show ((1 : ℝ) / 2) = (2 : ℝ)⁻¹ by norm_num, Real.sqrt_inv,
    inv_eq_one_div]

/-- C4: the lognormal branch passes scipy s = st_dev and scale = exp mean,
and numpy mean = mean and sigma = st_dev, so the underlying normal has mean
`mean` (the log of the scipy scale) and standard deviation st_dev; the
instantiation mean = 0 gives scale exp 0 = 1 (and s = st_dev = 1). -/
theorem lognormal_generator_parameters :
    (∀ (rng : GenCall → List ℝ) (mean st_dev : ℝ) (size : ℤ),
      (Distributions.init rng "lognormal" mean st_dev size).calls =
        [GenCall.lognorm st_dev (Real.exp mean) size]) ∧
    (∀ (nrng : NpGenCall → List ℝ) (mean st_dev : ℝ) (size : ℤ),
      (NumpyDistribution.init nrng "lognormal" mean st_dev size).calls =
        [NpGenCall.lognormal mean st_dev size]) ∧
    (∀ mean : ℝ, Real.log (Real.exp mean) = mean) ∧
    Real.exp (0 : ℝ) = 1 :=
  ⟨fun _ _ _ _ => rfl, fun _ _ _ _ => rfl, fun mean => Real.log_exp mean,
    Real.exp_zero⟩

/-- C7: the eq method applied to an instance of the other concrete class
returns the NotImplemented sentinel, not the boolean False. -/
theorem eq_cross_type_not_implemented :
    ∀ (d : Distributions) (n : NumpyDistribution),
      d.eq (PyObject.npdist n) = .ok .notImplemented ∧
      n.eq (PyObject.dist d) = .ok .notImplemented ∧
      d.eq (PyObject.npdist n) ≠ .ok (.bool false) ∧
      n.eq (PyObject.dist d) ≠ .ok (.bool false) :=
  fun d n => ⟨rfl, rfl, by simp [Distributions.eq], by simp [NumpyDistribution.eq]⟩

/-- Concrete float renderings for the formatting example: 10 and 5 print
as 10.0 and 5.0 in Python. -/
noncomputable def exFmtF : ℝ → String :=
  fun x => if x = 10 then "10.0" else if x = 5 then "5.0" else "0.0"

/-- Concrete int rendering for the formatting example. -/
def exFmtI : ℤ → String := fun n => if n = 1000 then "1000" else "0"

/-- A sampler object whose rounded stats are 10.0, 5.0 with size 1000. -/
def exSample : Distributions := ⟨none, none, none, "normal", 10, 5, 1000⟩

/-- C8: str renders exactly the template with the stored fields
substituted, for both classes; with the Python renderings of 10, 5 and
1000 this gives the literal line from the spec. -/
theorem str_template :
    (∀ (fmtF : ℝ → String) (fmtI : ℤ → String) (d : Distributions),
      d.toStr fmtF fmtI =
        "Distribution: " ++ d.distribution ++ ", Mean: " ++ fmtF d.mean ++
          ", Standard Deviation: " ++ fmtF d.st_dev ++ ", Size: " ++ fmtI d.size) ∧
    (∀ (fmtF : ℝ → String) (fmtI : ℤ → String) (d : NumpyDistribution),
      d.toStr fmtF fmtI =
        "Distribution: " ++ d.distribution ++ ", Mean: " ++ fmtF d.mean ++
          ", Standard Deviation: " ++ fmtF d.st_dev ++ ", Size: " ++ fmtI d.size) ∧
    exSample.toStr exFmtF exFmtI =
      "Distribution: normal, Mean: 10.0, Standard Deviation: 5.0, Size: 1000" := by
  refine ⟨fun _ _ _ => rfl, fun _ _ _ => rfl, ?_⟩
  norm_num [Distributions.toStr, exSample, exFmtF, exFmtI]
  rfl

/-- A Distributions instance built with an unrecognized kind. -/
def bogusD : Distributions := ⟨none, none, none, "bogus", 1, 2, 3⟩

/-- A NumpyDistribution instance built with an unrecognized kind. -/
def bogusN : NumpyDistribution := ⟨none, none, none, "bogus", 1, 2, 3⟩

/-- C1: comparing two same-class instances with identical stored fields
does not return True.  Once kind and mean match, the method evaluates
other.std_dev, an attribute that does not exist (the assigned name is
st_dev), and raises AttributeError.  Evaluated here on the instance built
with kind bogus, mean 1, std dev 2, size 3, compared against itself, for
both classes. -/
theorem eq_identical_raises_attribute_error :
    (Distributions.init (fun _ => []) "bogus" 1 2 3).result = .ok bogusD ∧
    bogusD.eq (.dist bogusD) = .error (.attributeError "std_dev") ∧
    (NumpyDistribution.init (fun _ => []) "bogus" 1 2 3).result = .ok bogusN ∧
    bogusN.eq (.npdist bogusN) = .error (.attributeError "std_dev") := by
  refine ⟨?_, ?_, ?_, ?_⟩
  · rw [distInit_unrecognized _ _ _ _ _ (by decide) (by decide) (by decide)]
    rfl
  · simp [Distributions.eq, Distributions.getattr, bogusD]
  · rw [npInit_unrecognized _ _ _ _ _ (by decide) (by decide) (by decide)]
    rfl
  · simp [NumpyDistribution.eq, NumpyDistribution.getattr, bogusN]

/-- C5: an unrecognized kind raises nothing, makes no generator call,
prints the diagnostic line, and stores the kind verbatim with mean and
std dev coerced by float (identity on numbers) and the size coerced by
int, in both classes. -/
theorem unrecognized_kind_behavior :
    ∀ (rng : GenCall → List ℝ) (nrng : NpGenCall → List ℝ) (kind : String)
      (mean st_dev : ℝ) (size : ℤ),
      kind ∉ recognizedKinds →
      Distributions.init rng kind mean st_dev size =
        ⟨[], [warningMsg],
          .ok ⟨none, none, none, pyStrId kind, pyFloat mean, pyFloat st_dev, pyInt size⟩⟩ ∧
      NumpyDistribution.init nrng kind mean st_dev size =
        ⟨[], [warningMsg],
          .ok ⟨none, none, none, pyStrId kind, pyFloat mean, pyFloat st_dev, pyInt size⟩⟩ := by
  intro rng nrng kind mean st_dev size h
  simp only [recognizedKinds, List.mem_cons, List.not_mem_nil, or_false,
    not_or] at h
  obtain ⟨h1, h2, h3⟩ := h
  rw [distInit_unrecognized rng kind mean st_dev size h1 h2 h3,
    npInit_unrecognized nrng kind mean st_dev size h1 h2 h3]
  exact ⟨rfl, rfl⟩

/-- C5 witness: kind bogus with mean 7/2, std dev 3/2, size 10. -/
theorem unrecognized_kind_behavior_witness :
    Distributions.init (fun _ => []) "bogus" (7 / 2) (3 / 2) 10 =
      ⟨[], [warningMsg],
        .ok ⟨none, none, none, pyStrId "bogus", pyFloat (7 / 2), pyFloat (3 / 2), pyInt 10⟩⟩ ∧
    NumpyDistribution.init (fun _ => []) "bogus" (7 / 2) (3 / 2) 10 =
      ⟨[], [warningMsg],
        .ok ⟨none, none, none, pyStrId "bogus", pyFloat (7 / 2), pyFloat (3 / 2), pyInt 10⟩⟩ :=
  unrecognized_kind_behavior (fun _ => []) (fun _ => []) "bogus" (7 / 2) (3 / 2)
    10 (by decide)

/-- C6: whenever construction succeeds, the stored size equals int(size),
in both classes and for every kind string. -/
theorem size_stored_as_int :
    (∀ (rng : GenCall → List ℝ) (kind : String) (mean st_dev : ℝ) (size : ℤ)
        (obj : Distributions),
        (Distributions.init rng kind mean st_dev size).result = .ok obj →
        obj.size = pyInt size) ∧
    (∀ (nrng : NpGenCall → List ℝ) (kind : String) (mean st_dev : ℝ) (size : ℤ)
        (obj : NumpyDistribution),
        (NumpyDistribution.init nrng kind mean st_dev size).result = .ok obj →
        obj.size = pyInt size) := by
  constructor
  · intro rng kind mean st_dev size obj h
    unfold Distributions.init at h
    repeat' split at h
    all_goals (try dsimp only at h)
    all_goals repeat' split at h
    all_goals (try (injection h with h))
    all_goals (try subst h)
    all_goals simp_all [pyInt]
  · intro nrng kind mean st_dev size obj h
    unfold NumpyDistribution.init at h
    repeat' split at h
    all_goals (try dsimp only at h)
    all_goals (try (injection h with h))
    all_goals (try subst h)
    all_goals simp_all [pyInt]

/-- C6 witness: the bogus-kind instance stores size int(3) = 3. -/
theorem size_stored_as_int_witness : bogusD.size = pyInt 3 :=
  size_stored_as_int.1 (fun _ => []) "bogus" 1 2 3 bogusD
    (by rw [distInit_unrecognized _ _ _ _ _ (by decide) (by decide) (by decide)]
        rfl)

/-- C10: on success at most one sample slot is populated, namely the one
matching the recognized kind; every slot not matching the kind is None,
so for an unrecognized kind all three are None. -/
theorem sample_slots_invariant :
    (∀ (rng : GenCall → List ℝ) (kind : String) (mean st_dev : ℝ) (size : ℤ)
        (obj : Distributions),
        (Distributions.init rng kind mean st_dev size).result = .ok obj →
        (kind ≠ "laplace" → obj.laplace_dist = none) ∧
        (kind ≠ "lognormal" → obj.lognormal_dist = none) ∧
        (kind ≠ "normal" → obj.normal_dist = none) ∧
        (kind = "laplace" → obj.laplace_dist.isSome) ∧
        (kind = "lognormal" → obj.lognormal_dist.isSome) ∧
        (kind = "normal" → obj.normal_dist.isSome)) ∧
    (∀ (nrng : NpGenCall → List ℝ) (kind : String) (mean st_dev : ℝ) (size : ℤ)
        (obj : NumpyDistribution),
        (NumpyDistribution.init nrng kind mean st_dev size).result = .ok obj →
        (kind ≠ "laplace" → obj.laplace_dist = none) ∧
        (kind ≠ "lognormal" → obj.lognormal_dist = none) ∧
        (kind ≠ "normal" → obj.normal_dist = none) ∧
        (kind = "laplace" → obj.laplace_dist.isSome) ∧
        (kind = "lognormal" → obj.lognormal_dist.isSome) ∧
        (kind = "normal" → obj.normal_dist.isSome)) := by
  constructor
  · intro rng kind mean st_dev size obj h
    unfold Distributions.init at h
    repeat' split at h
    all_goals (try dsimp only at h)
    all_goals repeat' split at h
    all_goals (try (injection h with h))
    all_goals (try subst h)
    all_goals simp_all
  · intro nrng kind mean st_dev size obj h
    unfold NumpyDistribution.init at h
    repeat' split at h
    all_goals (try dsimp only at h)
    all_goals (try (injection h with h))
    all_goals (try subst h)
    all_goals simp_all

/-- C10 witness: the bogus-kind instance has all three slots None. -/
theorem sample_slots_invariant_witness :
    ("bogus" ≠ "laplace" → bogusD.laplace_dist = none) ∧
    ("bogus" ≠ "lognormal" → bogusD.lognormal_dist = none) ∧
    ("bogus" ≠ "normal" → bogusD.normal_dist = none) ∧
    ("bogus" = "laplace" → bogusD.laplace_dist.isSome) ∧
    ("bogus" = "lognormal" → bogusD.lognormal_dist.isSome) ∧
    ("bogus" = "normal" → bogusD.normal_dist.isSome) :=
  sample_slots_invariant.1 (fun _ => []) "bogus" 1 2 3 bogusD
    (by rw [distInit_unrecognized _ _ _ _ _ (by decide) (by decide) (by decide)]
        rfl)

/-- A generator stub that returns the fixed sample 0, 2 for any call. -/
noncomputable def constRng2 : GenCall → List ℝ := fun _ => [0, 2]

/-- The numpy-side generator stub returning the fixed sample 0, 2. -/
noncomputable def constNpRng2 : NpGenCall → List ℝ := fun _ => [0, 2]

/-- A generator stub that returns the empty sample, as a draw of size 0 does. -/
def emptyRng : GenCall → List ℝ := fun _ => []

/-- C2: counterexample.  On the same drawn sample 0, 2 the
statistics-backed class stores standard deviation round2 (sqrt 2) = 1.41
(Bessel, denominator n - 1) while the numpy-backed class stores
round2 1 = 1 (np.std, denominator n): the two implementations do not
compute the standard deviation identically, and the numpy one is not
Bessel-corrected. -/
theorem stdev_implementations_differ :
    (Distributions.init constRng2 "normal" 0 1 2).result.map Distributions.st_dev
      = .ok (round2 (Real.sqrt 2)) ∧
    (NumpyDistribution.init constNpRng2 "normal" 0 1 2).result.map NumpyDistribution.st_dev
      = .ok (round2 1) ∧
    round2 (Real.sqrt 2) = 141 / 100 ∧
    round2 1 = 1 ∧
    ((141 : ℝ) / 100) ≠ 1 := by
  refine ⟨?_, ?_, round2_sqrt_two, round2_one, by norm_num⟩
  · rw [distInit_normal_ok constRng2 0 1 2 (by decide)]
    show Except.ok (round2 (besselStdev (constRng2 (GenCall.norm 0 1 2)))) = _
    rw [show constRng2 (GenCall.norm 0 1 2) = [(0 : ℝ), 2] from rfl, besselStdev_02]
  · rw [npInit_normal constNpRng2 0 1 2]
    show Except.ok (round2 (npStd (constNpRng2 (NpGenCall.normal 0 1 2)))) = _
    rw [show constNpRng2 (NpGenCall.normal 0 1 2) = [(0 : ℝ), 2] from rfl, npStd_02]

/-- C2: amended.  For every recognized kind and every draw of length at
least 2, both classes store the mean as round2 of the arithmetic mean of
the drawn values; the statistics-backed class stores the standard
deviation as round2 of the Bessel-corrected (denominator n - 1) sample
standard deviation of its drawn values, while the numpy-backed class
stores round2 of the population (denominator n) standard deviation of its
drawn values. -/
theorem summary_stats_formulas :
    ∀ (rng : GenCall → List ℝ) (nrng : NpGenCall → List ℝ) (kind : String)
      (mean st_dev : ℝ) (size : ℤ),
      kind ∈ recognizedKinds →
      (∀ c, 2 ≤ (rng c).length) →
      ∃ vsD vsN,
        (Distributions.init rng kind mean st_dev size).result.map
            (fun o => (o.values, o.mean, o.st_dev)) =
          .ok (some vsD, round2 (sampleMean vsD), round2 (besselStdev vsD)) ∧
        (NumpyDistribution.init nrng kind mean st_dev size).result.map
            (fun o => (o.values, o.mean, o.st_dev)) =
          .ok (some vsN, round2 (sampleMean vsN), round2 (npStd vsN)) := by
  intro rng nrng kind mean st_dev size hk hlen
  simp only [recognizedKinds, List.mem_cons, List.not_mem_nil, or_false] at hk
  rcases hk with rfl | rfl | rfl
  · refine ⟨rng (GenCall.lognorm st_dev (Real.exp mean) size),
      nrng (NpGenCall.lognormal mean st_dev size), ?_, ?_⟩
    · rw [distInit_lognormal_ok rng mean st_dev size (hlen _)]
      simp [Except.map, Distributions.values]
    · rw [npInit_lognormal nrng mean st_dev size]
      simp [Except.map, NumpyDistribution.values]
  · refine ⟨rng (GenCall.norm mean st_dev size),
      nrng (NpGenCall.normal mean st_dev size), ?_, ?_⟩
    · rw [distInit_normal_ok rng mean st_dev size (hlen _)]
      simp [Except.map, Distributions.values]
    · rw [npInit_normal nrng mean st_dev size]
      simp [Except.map, NumpyDistribution.values]
  · refine ⟨rng (GenCall.laplace mean (Real.sqrt (st_dev ^ 2 / 2)) size),
      nrng (NpGenCall.laplace mean (Real.sqrt (st_dev ^ 2 / 2)) size), ?_, ?_⟩
    · rw [distInit_laplace_ok rng mean st_dev size (hlen _)]
      simp [Except.map, Distributions.values]
    · rw [npInit_laplace nrng mean st_dev size]
      simp [Except.map, NumpyDistribution.values]

/-- C2 witness at kind normal on the fixed sample 0, 2. -/
theorem summary_stats_formulas_witness :
    ∃ vsD vsN,
      (Distributions.init constRng2 "normal" 0 1 2).result.map
          (fun o => (o.values, o.mean, o.st_dev)) =
        .ok (some vsD, round2 (sampleMean vsD), round2 (besselStdev vsD)) ∧
      (NumpyDistribution.init constNpRng2 "normal" 0 1 2).result.map
          (fun o => (o.values, o.mean, o.st_dev)) =
        .ok (some vsN, round2 (sampleMean vsN), round2 (npStd vsN)) :=
  summary_stats_formulas constRng2 constNpRng2 "normal" 0 1 2 (by decide)
    (fun c => le_refl 2)

/-- C9: counterexample.  At size 0 with a recognized kind the
statistics-backed constructor does not produce an object holding an empty
sample: statistics.mean raises StatisticsError on the empty draw, so
construction fails, although the generator returned exactly size = 0
values. -/
theorem size_zero_raises :
    (Distributions.init emptyRng "normal" 0 1 0).result =
      .error (.statisticsError "mean requires at least one data point") ∧
    (emptyRng (GenCall.norm 0 1 0)).length = (0 : ℤ).toNat := by
  constructor
  · simp [Distributions.init, statsMean, emptyRng]
  · rfl

/-- C9: amended.  For every recognized kind, whenever the generator
returns exactly size values and size is at least 2 (the statistics-backed
class raises StatisticsError on sizes 0 and 1), construction succeeds in
both classes, the stored sample has exactly size elements, and the stored
summary statistics are computed from those drawn elements, not from the
requested mean and standard deviation. -/
theorem sample_length_and_stats :
    ∀ (rng : GenCall → List ℝ) (nrng : NpGenCall → List ℝ) (kind : String)
      (mean st_dev : ℝ) (size : ℤ),
      kind ∈ recognizedKinds →
      (∀ c, (rng c).length = size.toNat) →
      (∀ c, (nrng c).length = size.toNat) →
      2 ≤ size →
      ∃ vsD vsN,
        vsD.length = size.toNat ∧ vsN.length = size.toNat ∧
        (Distributions.init rng kind mean st_dev size).result.map
            (fun o => (o.values, o.mean, o.st_dev)) =
          .ok (some vsD, round2 (sampleMean vsD), round2 (besselStdev vsD)) ∧
        (NumpyDistribution.init nrng kind mean st_dev size).result.map
            (fun o => (o.values, o.mean, o.st_dev)) =
          .ok (some vsN, round2 (sampleMean vsN), round2 (npStd vsN)) := by
  intro rng nrng kind mean st_dev size hk hlen hlenN hsz
  have h2 : ∀ c, 2 ≤ (rng c).length := fun c => by rw [hlen c]; omega
  simp only [recognizedKinds, List.mem_cons, List.not_mem_nil, or_false] at hk
  rcases hk with rfl | rfl | rfl
  · refine ⟨rng (GenCall.lognorm st_dev (Real.exp mean) size),
      nrng (NpGenCall.lognormal mean st_dev size), hlen _, hlenN _, ?_, ?_⟩
    · rw [distInit_lognormal_ok rng mean st_dev size (h2 _)]
      simp [Except.map, Distributions.values]
    · rw [npInit_lognormal nrng mean st_dev size]
      simp [Except.map, NumpyDistribution.values]
  · refine ⟨rng (GenCall.norm mean st_dev size),
      nrng (NpGenCall.normal mean st_dev size), hlen _, hlenN _, ?_, ?_⟩
    · rw [distInit_normal_ok rng mean st_dev size (h2 _)]
      simp [Except.map, Distributions.values]
    · rw [npInit_normal nrng mean st_dev size]
      simp [Except.map, NumpyDistribution.values]
  · refine ⟨rng (GenCall.laplace mean (Real.sqrt (st_dev ^ 2 / 2)) size),
      nrng (NpGenCall.laplace mean (Real.sqrt (st_dev ^ 2 / 2)) size),
      hlen _, hlenN _, ?_, ?_⟩
    · rw [distInit_laplace_ok rng mean st_dev size (h2 _)]
      simp [Except.map, Distributions.values]
    · rw [npInit_laplace nrng mean st_dev size]
      simp [Except.map, NumpyDistribution.values]

/-- C9 witness at kind normal, size 2, on the fixed sample 0, 2. -/
theorem sample_length_and_stats_witness :
    ∃ vsD vsN,
      vsD.length = (2 : ℤ).toNat ∧ vsN.length = (2 : ℤ).toNat ∧
      (Distributions.init constRng2 "normal" 0 1 2).result.map
          (fun o => (o.values, o.mean, o.st_dev)) =
        .ok (some vsD, round2 (sampleMean vsD), round2 (besselStdev vsD)) ∧
      (NumpyDistribution.init constNpRng2 "normal" 0 1 2).result.map
          (fun o => (o.values, o.mean, o.st_dev)) =
        .ok (some vsN, round2 (sampleMean vsN), round2 (npStd vsN)) :=
  sample_length_and_stats constRng2 constNpRng2 "normal" 0 1 2 (by decide)
    (fun c => rfl) (fun c => rfl) (by decide)
